import Mathlib

/-!
Verification of the cv-normalizer normalization-and-container-assembly
pipeline (Rust sources: src/lib.rs, src/image.rs, src/utils.rs).

Modelling conventions:
- byte buffers are lists of naturals (one entry per byte);
- ASCII text written to a buffer is embedded through strB, which maps a
  string to the list of its character codes (all emitted text is ASCII,
  so one character is one byte, matching str::as_bytes in the source);
- f32 arithmetic in calculate_target_size is modelled as exact rational
  arithmetic, and f32::round (round half away from zero, applied here to
  nonnegative values only) is modelled by rust_round, which is
  floor (q + 1/2);
- the external image codec collaborators (decoder, JPEG encoder, pixel
  transforms) are modelled by their interface contracts: an image is
  represented by its dimensions, resize_exact yields exactly the
  requested dimensions, and the encoder is an abstract function of the
  dimensions it receives.
-/

/-- Byte encoding of an ASCII string: the list of character codes.
All text the assembler emits is ASCII, so this matches as_bytes. -/
def strB (s : String) : List Nat := s.data.map Char.toNat

/-- strB distributes over string append. -/
lemma strB_append (a b : String) : strB (a ++ b) = strB a ++ strB b := by
  cases a; cases b
  simp [strB, String.append]

/-- The pattern pat occurs in buf starting exactly at byte index pos. -/
def bytesAt (buf : List Nat) (pos : Nat) (pat : List Nat) : Prop :=
  (buf.drop pos).take pat.length = pat

/-- Establish bytesAt from a decomposition of the buffer. -/
lemma bytesAt_of_append (buf a c pat : List Nat) (n : Nat)
    (hb : buf = a ++ c) (hc : c.take pat.length = pat) (hn : n = a.length) :
    bytesAt buf n pat := by
  subst hb; subst hn
  unfold bytesAt
  rw [List.drop_left, hc]

/-- Model of f32::round for the nonnegative values arising here:
round half away from zero, which for q greater or equal zero is
floor (q + 1/2). -/
def rust_round (q : ℚ) : ℤ := Int.floor (q + 1/2)

/-- rust_round of a value bounded by a natural number m is at most m. -/
lemma rust_round_le (q : ℚ) (m : Nat) (h : q ≤ (m : ℚ)) : rust_round q ≤ (m : ℤ) := by
  unfold rust_round
  have h1 : Int.floor (q + 1/2) ≤ Int.floor ((m : ℚ) + 1/2) :=
    Int.floor_le_floor (by linarith)
  have h2 : Int.floor ((m : ℚ) + 1/2) = (m : ℤ) := by
    rw [show ((m : ℚ) + 1/2) = ((m : ℤ) : ℚ) + 1/2 by push_cast; ring]
    rw [Int.floor_int_add]
    norm_num
  omega

namespace Utils

/-- Size policy, translated from calculate_target_size in src/utils.rs.
The f32 ratio arithmetic is modelled as exact rational arithmetic and
f32::round as rust_round; the final `as u32` cast is Int.toNat (all
reachable values are small and nonnegative). -/
def calculate_target_size (orig_w orig_h max_side : Nat) : Nat × Nat :=
  if orig_w ≤ max_side ∧ orig_h ≤ max_side then
    (orig_w, orig_h)
  else if orig_h ≤ orig_w then
    let ratio : ℚ := (max_side : ℚ) / (orig_w : ℚ)
    let h : Nat := (max (rust_round ((orig_h : ℚ) * ratio)) 1).toNat
    (max_side, h)
  else
    let ratio : ℚ := (max_side : ℚ) / (orig_h : ℚ)
    let w : Nat := (max (rust_round ((orig_w : ℚ) * ratio)) 1).toNat
    (w, max_side)

end Utils

namespace Lib

/-- Size policy, translated from the (textually identical) private copy of
calculate_target_size in src/lib.rs, with the same modelling conventions
as the copy in Utils. -/
def calculate_target_size (orig_w orig_h max_side : Nat) : Nat × Nat :=
  if orig_w ≤ max_side ∧ orig_h ≤ max_side then
    (orig_w, orig_h)
  else if orig_h ≤ orig_w then
    let ratio : ℚ := (max_side : ℚ) / (orig_w : ℚ)
    let h : Nat := (max (rust_round ((orig_h : ℚ) * ratio)) 1).toNat
    (max_side, h)
  else
    let ratio : ℚ := (max_side : ℚ) / (orig_h : ℚ)
    let w : Nat := (max (rust_round ((orig_w : ℚ) * ratio)) 1).toNat
    (w, max_side)

end Lib

/-- Both components of the size policy result are bounded by max_side,
provided max_side is positive. -/
lemma calculate_target_size_le (w h m : Nat) (hm : 1 ≤ m) :
    (Utils.calculate_target_size w h m).1 ≤ m ∧
    (Utils.calculate_target_size w h m).2 ≤ m := by
  unfold Utils.calculate_target_size
  by_cases hsmall : w ≤ m ∧ h ≤ m
  · rw [if_pos hsmall]
    exact ⟨hsmall.1, hsmall.2⟩
  · rw [if_neg hsmall]
    by_cases hwh : h ≤ w
    · rw [if_pos hwh]
      refine ⟨le_refl m, ?_⟩
      have hw0 : 0 < w := by
        rcases Nat.lt_or_ge 0 w with hw | hw
        · exact hw
        · interval_cases w
          · omega
      have hq : (h : ℚ) * ((m : ℚ) / (w : ℚ)) ≤ (m : ℚ) := by
        rw [mul_div_assoc']
        rw [div_le_iff₀ (by exact_mod_cast hw0)]
        have : (h : ℚ) ≤ (w : ℚ) := by exact_mod_cast hwh
        nlinarith [show (0:ℚ) ≤ (m:ℚ) by positivity]
      have hr := rust_round_le _ m hq
      have hb : max (rust_round ((h : ℚ) * ((m : ℚ) / (w : ℚ)))) 1 ≤ (m : ℤ) := by
        apply max_le hr
        exact_mod_cast hm
      show (max (rust_round ((h : ℚ) * ((m : ℚ) / (w : ℚ)))) 1).toNat ≤ m
      omega
    · rw [if_neg hwh]
      refine ⟨?_, le_refl m⟩
      have hh0 : 0 < h := by omega
      have hq : (w : ℚ) * ((m : ℚ) / (h : ℚ)) ≤ (m : ℚ) := by
        rw [mul_div_assoc']
        rw [div_le_iff₀ (by exact_mod_cast hh0)]
        have : (w : ℚ) ≤ (h : ℚ) := by
          have : w ≤ h := by omega
          exact_mod_cast this
        nlinarith [show (0:ℚ) ≤ (m:ℚ) by positivity]
      have hr := rust_round_le _ m hq
      have hb : max (rust_round ((w : ℚ) * ((m : ℚ) / (h : ℚ)))) 1 ≤ (m : ℤ) := by
        apply max_le hr
        exact_mod_cast hm
      show (max (rust_round ((w : ℚ) * ((m : ℚ) / (h : ℚ)))) 1).toNat ≤ m
      omega

/-- Format header bytes written first by jpeg_to_single_page_pdf. -/
def hdr : List Nat := strB "%PDF-1.4\n"

/-- Leading marker of object id, as written by the start_obj helper
(the offset recorded for the object points at its first byte). -/
def objHeader (id : Nat) : List Nat := strB (Nat.repr id ++ " 0 obj\n")

/-- Object 1 (Catalog) together with its leading marker. -/
def blk1 : List Nat :=
  objHeader 1 ++ strB "<< /Type /Catalog /Pages 2 0 R >>\nendobj\n"

/-- Object 2 (Pages) together with its leading marker. -/
def blk2 : List Nat :=
  objHeader 2 ++ strB "<< /Type /Pages /Kids [3 0 R] /Count 1 >>\nendobj\n"

/-- Object 3 (Page) together with its leading marker. -/
def blk3 (width height : Nat) : List Nat :=
  objHeader 3 ++
  strB ("<< /Type /Page /Parent 2 0 R /MediaBox [0 0 " ++ Nat.repr width ++ " " ++
    Nat.repr height ++
    "] /Resources << /XObject << /Im0 4 0 R >> /ProcSet [/PDF /ImageC] >> " ++
    "/Contents 5 0 R >>\nendobj\n")

/-- Dictionary head of object 4 (Image XObject), up to and including the
stream keyword and its newline. -/
def imageDictHead (width height len : Nat) : List Nat :=
  strB ("<< /Type /XObject /Subtype /Image /Name /Im0 /Width " ++ Nat.repr width ++
    " /Height " ++ Nat.repr height ++
    " /ColorSpace /DeviceRGB /BitsPerComponent 8 /Filter /DCTDecode /Length " ++
    Nat.repr len ++ " >>\nstream\n")

/-- Object 4 (Image XObject): marker, dictionary, the raw JPEG bytes
copied verbatim, and the stream terminator. -/
def blk4 (jpeg_bytes : List Nat) (width height : Nat) : List Nat :=
  objHeader 4 ++ imageDictHead width height jpeg_bytes.length ++ jpeg_bytes ++
  strB "\nendstream\nendobj\n"

/-- Textual drawing program of the content stream. -/
def contentText (width height : Nat) : String :=
  "q\n" ++ Nat.repr width ++ " 0 0 " ++ Nat.repr height ++ " 0 0 cm\n" ++ "/Im0 Do\nQ\n"

/-- Object 5 (Content stream) together with its leading marker. -/
def blk5 (width height : Nat) : List Nat :=
  objHeader 5 ++
  strB ("<< /Length " ++ Nat.repr (strB (contentText width height)).length ++
    " >>\nstream\n" ++ contentText width height ++ "endstream\nendobj\n")

/-- Byte offset recorded for object 1 (captured as pdf.len() right before
the object marker is written; the header bytes are accounted for). -/
def off1 : Nat := hdr.length

/-- Byte offset recorded for object 2. -/
def off2 : Nat := off1 + blk1.length

/-- Byte offset recorded for object 3. -/
def off3 : Nat := off2 + blk2.length

/-- Byte offset recorded for object 4. -/
def off4 (width height : Nat) : Nat := off3 + (blk3 width height).length

/-- Byte offset recorded for object 5. -/
def off5 (jpeg_bytes : List Nat) (width height : Nat) : Nat :=
  off4 width height + (blk4 jpeg_bytes width height).length

/-- The xref_positions vector accumulated by start_obj, in push order. -/
def xref_positions (jpeg_bytes : List Nat) (width height : Nat) : List Nat :=
  [off1, off2, off3, off4 width height, off5 jpeg_bytes width height]

/-- Byte offset at which the cross-reference section starts
(pdf.len() after all five objects are written). -/
def xrefStartPos (jpeg_bytes : List Nat) (width height : Nat) : Nat :=
  off5 jpeg_bytes width height + (blk5 width height).length

/-- Decimal representation padded with leading zeros to a minimum width of
ten digits, the format written by the Rust formatter for each offset. -/
def pad10 (n : Nat) : String :=
  String.mk (List.replicate (10 - (Nat.repr n).length) '0') ++ Nat.repr n

/-- One in-use entry line of the cross-reference table. -/
def xrefEntry (off : Nat) : List Nat := strB (pad10 off ++ " 00000 n \n")

/-- Cross-reference section: header row with the total entry count, the
fixed free-list head entry for object 0, then one entry per recorded
offset in push (ascending id) order. -/
def xrefSection (offs : List Nat) : List Nat :=
  strB ("xref\n0 " ++ Nat.repr (offs.length + 1) ++ "\n") ++
  strB "0000000000 65535 f \n" ++
  (offs.map xrefEntry).flatten

/-- Trailer and footer: total size, document root (object 1), and the
startxref keyword followed by the xref section byte offset. -/
def trailerSection (size start : Nat) : List Nat :=
  strB ("trailer\n<< /Size " ++ Nat.repr size ++ " /Root 1 0 R >>\nstartxref\n" ++
    Nat.repr start ++ "\n%%EOF\n")

/-- Container assembler, translated from jpeg_to_single_page_pdf in
src/lib.rs: header, five objects in fixed order (each offset captured as
the cumulative byte length right before the object marker), then the
cross-reference section and the trailer. -/
def jpeg_to_single_page_pdf (jpeg_bytes : List Nat) (width height : Nat) : List Nat :=
  hdr ++ blk1 ++ blk2 ++ blk3 width height ++ blk4 jpeg_bytes width height ++
  blk5 width height ++
  xrefSection (xref_positions jpeg_bytes width height) ++
  trailerSection ((xref_positions jpeg_bytes width height).length + 1)
    (xrefStartPos jpeg_bytes width height)

/-- ImageOrientation models the Orientation enum of the image crate (the eight standard EXIF
transforms), an external collaborator type used at the interface. -/
inductive ImageOrientation where
  | NoTransforms
  | FlipHorizontal
  | Rotate180
  | FlipVertical
  | Rotate90FlipH
  | Rotate90
  | Rotate270FlipH
  | Rotate270
deriving DecidableEq

/-- Collaborator contract of Orientation::from_exif in the image crate:
valid raw EXIF values 1 through 8 map to the eight transforms, anything
else is rejected. -/
def ImageOrientation.from_exif (v : Nat) : Option ImageOrientation :=
  match v with
  | 1 => some .NoTransforms
  | 2 => some .FlipHorizontal
  | 3 => some .Rotate180
  | 4 => some .FlipVertical
  | 5 => some .Rotate90FlipH
  | 6 => some .Rotate90
  | 7 => some .Rotate270FlipH
  | 8 => some .Rotate270
  | _ => none

/-- Collaborator contract of DynamicImage::apply_orientation restricted to
dimensions: quarter-turn transforms swap width and height, the others
keep them. -/
def apply_orientation_dims (o : ImageOrientation) (d : Nat × Nat) : Nat × Nat :=
  match o with
  | .Rotate90 => (d.2, d.1)
  | .Rotate270 => (d.2, d.1)
  | .Rotate90FlipH => (d.2, d.1)
  | .Rotate270FlipH => (d.2, d.1)
  | _ => d

/-- A decoded input image as seen through the collaborator interfaces:
its stored pixel dimensions, the raw primary EXIF orientation value when
the metadata block is present and readable (read_from_container,
get_field and get_uint failures are all collapsed into none), and the
orientation reported by the decoder itself, when any. -/
structure DecodedInput where
  storedW : Nat
  storedH : Nat
  exifValue : Option Nat
  decoderOrientation : Option ImageOrientation
deriving DecidableEq

/-- Translated from orientation_from_exif_bytes in src/image.rs: a missing
or unreadable metadata block yields none (the function is total, failure
is never an error); a readable raw u32 value is first truncated to a byte
(the v as u8 cast of image.rs line 27, modelled by mod 256) and only then
validated by from_exif. -/
def orientation_from_exif_bytes (exifValue : Option Nat) : Option ImageOrientation :=
  exifValue.bind (fun v => ImageOrientation.from_exif (v % 256))

/-- Orientation resolution of load_image_with_orientation in src/image.rs:
the EXIF-read orientation, otherwise the decoder-reported one, otherwise
NoTransforms. -/
def resolve_orientation (fromExif fromDecoder : Option ImageOrientation) : ImageOrientation :=
  (fromExif.or fromDecoder).getD ImageOrientation.NoTransforms

/-- Dimension semantics of load_image_with_orientation in src/image.rs:
decode, resolve the orientation, apply it to the decoded buffer. -/
def load_image_with_orientation_dims (f : DecodedInput) : Nat × Nat :=
  apply_orientation_dims
    (resolve_orientation (orientation_from_exif_bytes f.exifValue) f.decoderOrientation)
    (f.storedW, f.storedH)

/-- Translated from the to_ascii_lowercase call in src/lib.rs: only the
ASCII letters A through Z are lowered. -/
def to_ascii_lowercase_char (c : Char) : Char :=
  if 65 ≤ c.toNat ∧ c.toNat ≤ 90 then Char.ofNat (c.toNat + 32) else c

/-- ASCII lowercasing of a whole string. -/
def to_ascii_lowercase (s : String) : String :=
  String.mk (s.data.map to_ascii_lowercase_char)

/-- Translated from normalize_cv_to_pdf in src/lib.rs. The external
decoder (image::load_from_memory, which does not apply any orientation)
and the JPEG encoder are abstract collaborators: decode yields a
DecodedInput or fails, encodeJpeg stands for encode_to_jpeg applied to
the (possibly resized) pixel buffer and is a function of the dimensions
the buffer has at that point. An unsupported mime returns the input
bytes unchanged. -/
def normalize_cv_to_pdf (decode : List Nat → Except String DecodedInput)
    (encodeJpeg : Nat → Nat → List Nat)
    (bytes : List Nat) (mime : String) : Except String (List Nat) :=
  let mime_lc := to_ascii_lowercase mime
  if ¬(mime_lc = "image/png" ∨ mime_lc = "image/jpeg" ∨ mime_lc = "image/jpg" ∨
      mime_lc = "image/pjpeg") then
    Except.ok bytes
  else
    match decode bytes with
    | Except.error e => Except.error ("Failed to process image for CV normalization: " ++ e)
    | Except.ok img =>
      let origW := img.storedW
      let origH := img.storedH
      let target := Lib.calculate_target_size origW origH 2000
      Except.ok (jpeg_to_single_page_pdf (encodeJpeg target.1 target.2) target.1 target.2)

/-- Option record of optimize_image in src/image.rs. -/
structure ImageOptimizeOptions where
  max_width : Option Nat
  max_height : Option Nat
  quality : Option Nat
  format : Option String

/-- Dimension semantics of optimize_image in src/image.rs: the resize
decision and the dimensions of the buffer that is finally encoded
(resize_exact yields exactly the computed target; pixel contents,
quality clamping and the output codec do not affect dimensions). The
decoded image is given by its upright dimensions. -/
def optimize_image_dims (orig_w orig_h : Nat) (options : Option ImageOptimizeOptions) :
    Nat × Nat :=
  let opts := options.getD ⟨none, none, some 80, some "auto"⟩
  let max_w := opts.max_width.getD 0
  let max_h := opts.max_height.getD 0
  if (0 < max_w ∧ max_w < orig_w) ∨ (0 < max_h ∧ max_h < orig_h) then
    let max_side :=
      if 0 < max_w ∧ 0 < max_h then min max_w max_h
      else if 0 < max_w then max_w
      else if 0 < max_h then max_h
      else max orig_w orig_h
    Utils.calculate_target_size orig_w orig_h max_side
  else
    (orig_w, orig_h)

/-- C6: when both original dimensions are already at most maxSide, the
size policy returns them unchanged — it never upscales. -/
theorem C6_no_upscaling (origW origH maxSide : Nat)
    (hw : origW ≤ maxSide) (hh : origH ≤ maxSide) :
    Utils.calculate_target_size origW origH maxSide = (origW, origH) := by
  unfold Utils.calculate_target_size
  rw [if_pos ⟨hw, hh⟩]

/-- Witness for C6 at origW = 5, origH = 7, maxSide = 10. -/
theorem C6_no_upscaling_witness :
    Utils.calculate_target_size 5 7 10 = (5, 7) :=
  C6_no_upscaling 5 7 10 (by decide) (by decide)

/-- C5 counterexample: the claim includes maxSide = 0, but at
origW = 10, origH = 5, maxSide = 0 the size policy returns width 0. -/
theorem C5_counterexample :
    Utils.calculate_target_size 10 5 0 = (0, 1) ∧
    (Utils.calculate_target_size 10 5 0).1 = 0 := by
  have h : Utils.calculate_target_size 10 5 0 = (0, 1) := by
    norm_num [Utils.calculate_target_size, rust_round]
  exact ⟨h, by rw [h]⟩

/-- C5 amended: for positive origW, origH and positive maxSide, neither
component of the size policy result is 0. -/
theorem C5_min_dimension_floor (origW origH maxSide : Nat)
    (hw : 1 ≤ origW) (hh : 1 ≤ origH) (hm : 1 ≤ maxSide) :
    1 ≤ (Utils.calculate_target_size origW origH maxSide).1 ∧
    1 ≤ (Utils.calculate_target_size origW origH maxSide).2 := by
  unfold Utils.calculate_target_size
  by_cases hsmall : origW ≤ maxSide ∧ origH ≤ maxSide
  · rw [if_pos hsmall]
    exact ⟨hw, hh⟩
  · rw [if_neg hsmall]
    by_cases hwh : origH ≤ origW
    · rw [if_pos hwh]
      refine ⟨hm, ?_⟩
      show 1 ≤ (max (rust_round ((origH : ℚ) * ((maxSide : ℚ) / (origW : ℚ)))) 1).toNat
      have h1 : (1 : ℤ) ≤ max (rust_round ((origH : ℚ) * ((maxSide : ℚ) / (origW : ℚ)))) 1 :=
        le_max_right _ _
      omega
    · rw [if_neg hwh]
      refine ⟨?_, hm⟩
      show 1 ≤ (max (rust_round ((origW : ℚ) * ((maxSide : ℚ) / (origH : ℚ)))) 1).toNat
      have h1 : (1 : ℤ) ≤ max (rust_round ((origW : ℚ) * ((maxSide : ℚ) / (origH : ℚ)))) 1 :=
        le_max_right _ _
      omega

/-- Witness for the amended C5 at the extreme aspect ratio of the spec:
origW = 10000, origH = 1, maxSide = 100. -/
theorem C5_min_dimension_floor_witness :
    1 ≤ (Utils.calculate_target_size 10000 1 100).1 ∧
    1 ≤ (Utils.calculate_target_size 10000 1 100).2 :=
  C5_min_dimension_floor 10000 1 100 (by decide) (by decide) (by decide)

/-- C7: when maxSide is positive and the longer original side exceeds it,
the output axis of the longer original side equals maxSide, the other
axis is the shorter original side scaled by maxSide over the longer
side, rounded to the nearest integer and floored at 1, and neither
output component exceeds maxSide. -/
theorem C7_longer_side_policy (origW origH maxSide : Nat) (hm : 0 < maxSide)
    (hgt : maxSide < max origW origH) :
    (origH ≤ origW →
      Utils.calculate_target_size origW origH maxSide =
        (maxSide,
         (max (rust_round
           (((min origW origH : Nat) : ℚ) * (maxSide : ℚ) / ((max origW origH : Nat) : ℚ))) 1).toNat)) ∧
    (origW < origH →
      Utils.calculate_target_size origW origH maxSide =
        ((max (rust_round
           (((min origW origH : Nat) : ℚ) * (maxSide : ℚ) / ((max origW origH : Nat) : ℚ))) 1).toNat,
         maxSide)) ∧
    (Utils.calculate_target_size origW origH maxSide).1 ≤ maxSide ∧
    (Utils.calculate_target_size origW origH maxSide).2 ≤ maxSide := by
  have hne : ¬(origW ≤ maxSide ∧ origH ≤ maxSide) := by
    rcases lt_max_iff.mp hgt with h | h <;> omega
  have hle := calculate_target_size_le origW origH maxSide hm
  refine ⟨?_, ?_, hle.1, hle.2⟩
  · intro hwh
    have hmin : min origW origH = origH := min_eq_right hwh
    have hmax : max origW origH = origW := max_eq_left hwh
    rw [hmin, hmax]
    unfold Utils.calculate_target_size
    rw [if_neg hne, if_pos hwh]
    show (maxSide, (max (rust_round ((origH : ℚ) * ((maxSide : ℚ) / (origW : ℚ)))) 1).toNat)
      = (maxSide, (max (rust_round ((origH : ℚ) * (maxSide : ℚ) / (origW : ℚ))) 1).toNat)
    rw [mul_div_assoc]
  · intro hlt
    have hwh : origW ≤ origH := Nat.le_of_lt hlt
    have hmin : min origW origH = origW := min_eq_left hwh
    have hmax : max origW origH = origH := max_eq_right hwh
    rw [hmin, hmax]
    unfold Utils.calculate_target_size
    rw [if_neg hne, if_neg (by omega)]
    show ((max (rust_round ((origW : ℚ) * ((maxSide : ℚ) / (origH : ℚ)))) 1).toNat, maxSide)
      = ((max (rust_round ((origW : ℚ) * (maxSide : ℚ) / (origH : ℚ))) 1).toNat, maxSide)
    rw [mul_div_assoc]

/-- Witness for C7 at origW = 10000, origH = 1, maxSide = 100. -/
theorem C7_longer_side_policy_witness :
    Utils.calculate_target_size 10000 1 100 =
      (100,
       (max (rust_round (((min 10000 1 : Nat) : ℚ) * (100 : ℚ) / ((max 10000 1 : Nat) : ℚ))) 1).toNat) :=
  (C7_longer_side_policy 10000 1 100 (by decide) (by decide)).1 (by decide)

/-- C10: the size policy in src/lib.rs and the one in src/utils.rs are
extensionally equal — they agree at every input. -/
theorem C10_size_policy_copies_agree (origW origH maxSide : Nat) :
    Lib.calculate_target_size origW origH maxSide =
      Utils.calculate_target_size origW origH maxSide := rfl

/-- C8: for any declared mime whose ASCII-lowercased form is not in the
supported image set, the pipeline returns the input bytes unchanged and
does not fail, whatever the decoder and encoder collaborators do. -/
theorem C8_passthrough (decode : List Nat → Except String DecodedInput)
    (encodeJpeg : Nat → Nat → List Nat) (bytes : List Nat) (mime : String)
    (hmime : ¬(to_ascii_lowercase mime = "image/png" ∨
      to_ascii_lowercase mime = "image/jpeg" ∨
      to_ascii_lowercase mime = "image/jpg" ∨
      to_ascii_lowercase mime = "image/pjpeg")) :
    normalize_cv_to_pdf decode encodeJpeg bytes mime = Except.ok bytes := by
  unfold normalize_cv_to_pdf
  rw [if_pos hmime]

/-- Witness for C8 at the mime application/PDF (unsupported even after
lowercasing) with a failing decoder. -/
theorem C8_passthrough_witness :
    normalize_cv_to_pdf (fun _ => Except.error "no decode") (fun _ _ => [])
      [7, 8, 9] "application/PDF" = Except.ok [7, 8, 9] :=
  C8_passthrough _ _ _ _ (by decide)

/-- C9 counterexample: the raw EXIF orientation value 257 is not a valid
orientation tag value, yet the program truncates it to a byte before
validation (257 mod 256 = 1), so the metadata source resolves to
NoTransforms and the conflicting decoder-reported Rotate180 is ignored —
a present-but-invalid tag does not fall through to the decoder as the
claim requires. -/
theorem C9_counterexample :
    ImageOrientation.from_exif 257 = none ∧
    orientation_from_exif_bytes (some 257) = some ImageOrientation.NoTransforms ∧
    resolve_orientation (orientation_from_exif_bytes (some 257))
      (some ImageOrientation.Rotate180) = ImageOrientation.NoTransforms ∧
    ImageOrientation.NoTransforms ≠ ImageOrientation.Rotate180 :=
  ⟨by decide, by decide, by decide, by decide⟩

/-- C9 amended: the metadata orientation source is from_exif applied to
the raw EXIF value truncated to its low byte; whenever that yields an
orientation it wins over a conflicting decoder-reported one (so a raw
value that is invalid before truncation can still win); when the
truncated value is invalid, or the metadata block is missing or
unreadable, resolution falls through silently to the decoder-reported
orientation, then to NoTransforms — never to an error. -/
theorem C9_orientation_precedence (v : Nat) (o d : ImageOrientation) :
    (ImageOrientation.from_exif (v % 256) = some o →
      resolve_orientation (orientation_from_exif_bytes (some v)) (some d) = o) ∧
    (ImageOrientation.from_exif (v % 256) = none →
      resolve_orientation (orientation_from_exif_bytes (some v)) (some d) = d) ∧
    (orientation_from_exif_bytes none = none) ∧
    (resolve_orientation none (some d) = d) ∧
    (resolve_orientation none none = ImageOrientation.NoTransforms) := by
  refine ⟨?_, ?_, rfl, rfl, rfl⟩
  · intro hv
    simp [resolve_orientation, orientation_from_exif_bytes, hv, Option.or]
  · intro hv
    simp [resolve_orientation, orientation_from_exif_bytes, hv, Option.or]

/-- Witness for C9: EXIF raw value 6 (rotate 90 clockwise, already a
byte) beats the conflicting decoder-reported Rotate180. -/
theorem C9_orientation_precedence_witness :
    resolve_orientation (orientation_from_exif_bytes (some 6))
      (some ImageOrientation.Rotate180) = ImageOrientation.Rotate90 :=
  (C9_orientation_precedence 6 ImageOrientation.Rotate90 ImageOrientation.Rotate180).1
    (by decide)

/-- C4 counterexample: with only max_width 800 supplied and a 600 by 1000
image, the longer dimension exceeds the bound but optimize_image performs
no resize, so the output is not the size-policy target and its height
still exceeds the bound. -/
theorem C4_counterexample :
    optimize_image_dims 600 1000 (some ⟨some 800, none, none, none⟩) = (600, 1000) ∧
    800 < max 600 1000 ∧
    Utils.calculate_target_size 600 1000 800 = (480, 800) ∧
    optimize_image_dims 600 1000 (some ⟨some 800, none, none, none⟩) ≠
      Utils.calculate_target_size 600 1000 800 ∧
    800 < (optimize_image_dims 600 1000 (some ⟨some 800, none, none, none⟩)).2 := by
  have h1 : optimize_image_dims 600 1000 (some ⟨some 800, none, none, none⟩) = (600, 1000) := by
    decide
  have h2 : Utils.calculate_target_size 600 1000 800 = (480, 800) := by
    (norm_num [Utils.calculate_target_size, rust_round]; rfl)
  refine ⟨h1, by decide, h2, ?_, ?_⟩
  · rw [h1, h2]
    decide
  · rw [h1]
    decide

/-- C4 amended: a single supplied bound acts as the max-side constraint
exactly when the bounded axis itself exceeds it: the image is then
resized to exactly the size-policy target and neither output dimension
exceeds the bound, and when the bounded axis is within the bound no
resize occurs at all (even if the other, unbounded axis is larger); an
absent bound and a zero bound behave alike. -/
theorem C4_single_bound (origW origH m : Nat) (q : Option Nat) (fmt : Option String)
    (hm : 0 < m) :
    (m < origW →
      optimize_image_dims origW origH (some ⟨some m, none, q, fmt⟩) =
        Utils.calculate_target_size origW origH m ∧
      (optimize_image_dims origW origH (some ⟨some m, none, q, fmt⟩)).1 ≤ m ∧
      (optimize_image_dims origW origH (some ⟨some m, none, q, fmt⟩)).2 ≤ m) ∧
    (origW ≤ m →
      optimize_image_dims origW origH (some ⟨some m, none, q, fmt⟩) = (origW, origH)) ∧
    (m < origH →
      optimize_image_dims origW origH (some ⟨none, some m, q, fmt⟩) =
        Utils.calculate_target_size origW origH m ∧
      (optimize_image_dims origW origH (some ⟨none, some m, q, fmt⟩)).1 ≤ m ∧
      (optimize_image_dims origW origH (some ⟨none, some m, q, fmt⟩)).2 ≤ m) ∧
    (origH ≤ m →
      optimize_image_dims origW origH (some ⟨none, some m, q, fmt⟩) = (origW, origH)) ∧
    optimize_image_dims origW origH (some ⟨some m, some 0, q, fmt⟩) =
      optimize_image_dims origW origH (some ⟨some m, none, q, fmt⟩) ∧
    optimize_image_dims origW origH (some ⟨none, some m, q, fmt⟩) =
      optimize_image_dims origW origH (some ⟨some 0, some m, q, fmt⟩) := by
  refine ⟨?_, ?_, ?_, ?_, rfl, rfl⟩
  case refine_2 =>
    intro hle
    unfold optimize_image_dims
    simp only [Option.getD_some, Option.getD_none]
    rw [if_neg (by omega)]
  case refine_4 =>
    intro hle
    unfold optimize_image_dims
    simp only [Option.getD_some, Option.getD_none]
    rw [if_neg (by omega)]
  · intro hwgt
    have hres : optimize_image_dims origW origH (some ⟨some m, none, q, fmt⟩) =
        Utils.calculate_target_size origW origH m := by
      unfold optimize_image_dims
      simp only [Option.getD_some, Option.getD_none]
      rw [if_pos (Or.inl ⟨hm, hwgt⟩)]
      rw [if_neg (by omega), if_pos hm]
    have hle := calculate_target_size_le origW origH m hm
    rw [hres]
    exact ⟨rfl, hle.1, hle.2⟩
  · intro hhgt
    have hres : optimize_image_dims origW origH (some ⟨none, some m, q, fmt⟩) =
        Utils.calculate_target_size origW origH m := by
      unfold optimize_image_dims
      simp only [Option.getD_some, Option.getD_none]
      rw [if_pos (Or.inr ⟨hm, hhgt⟩)]
      rw [if_neg (by omega), if_neg (by omega), if_pos hm]
    have hle := calculate_target_size_le origW origH m hm
    rw [hres]
    exact ⟨rfl, hle.1, hle.2⟩

/-- Witness for the amended C4: a 4000 by 3000 image with only max_width
800 supplied is resized to the size-policy target within the bound, and
a 600 by 1000 image with the same single bound is left untouched because
the bounded axis is within the bound. -/
theorem C4_single_bound_witness :
    (optimize_image_dims 4000 3000 (some ⟨some 800, none, none, none⟩) =
      Utils.calculate_target_size 4000 3000 800 ∧
    (optimize_image_dims 4000 3000 (some ⟨some 800, none, none, none⟩)).1 ≤ 800 ∧
    (optimize_image_dims 4000 3000 (some ⟨some 800, none, none, none⟩)).2 ≤ 800) ∧
    optimize_image_dims 600 1000 (some ⟨some 800, none, none, none⟩) = (600, 1000) :=
  ⟨(C4_single_bound 4000 3000 800 none none (by decide)).1 (by decide),
   (C4_single_bound 600 1000 800 none none (by decide)).2.1 (by decide)⟩

/-- Marker of object 1 sits exactly at the recorded offset off1. -/
lemma obj1_marker_at (j : List Nat) (w h : Nat) :
    bytesAt (jpeg_to_single_page_pdf j w h) off1 (strB (Nat.repr 1 ++ " 0 obj")) := by
  apply bytesAt_of_append _ hdr
    (blk1 ++ (blk2 ++ (blk3 w h ++ (blk4 j w h ++ (blk5 w h ++
      (xrefSection (xref_positions j w h) ++
       trailerSection ((xref_positions j w h).length + 1) (xrefStartPos j w h)))))))
  · unfold jpeg_to_single_page_pdf
    simp only [List.append_assoc]
  · unfold blk1 objHeader
    simp only [List.append_assoc]
    rw [List.take_append_of_le_length (by decide)]
    decide
  · rfl

/-- Marker of object 2 sits exactly at the recorded offset off2. -/
lemma obj2_marker_at (j : List Nat) (w h : Nat) :
    bytesAt (jpeg_to_single_page_pdf j w h) off2 (strB (Nat.repr 2 ++ " 0 obj")) := by
  apply bytesAt_of_append _ (hdr ++ blk1)
    (blk2 ++ (blk3 w h ++ (blk4 j w h ++ (blk5 w h ++
      (xrefSection (xref_positions j w h) ++
       trailerSection ((xref_positions j w h).length + 1) (xrefStartPos j w h))))))
  · unfold jpeg_to_single_page_pdf
    simp only [List.append_assoc]
  · unfold blk2 objHeader
    simp only [List.append_assoc]
    rw [List.take_append_of_le_length (by decide)]
    decide
  · simp [off2, off1, List.length_append]

/-- Marker of object 3 sits exactly at the recorded offset off3. -/
lemma obj3_marker_at (j : List Nat) (w h : Nat) :
    bytesAt (jpeg_to_single_page_pdf j w h) off3 (strB (Nat.repr 3 ++ " 0 obj")) := by
  apply bytesAt_of_append _ (hdr ++ (blk1 ++ blk2))
    (blk3 w h ++ (blk4 j w h ++ (blk5 w h ++
      (xrefSection (xref_positions j w h) ++
       trailerSection ((xref_positions j w h).length + 1) (xrefStartPos j w h)))))
  · unfold jpeg_to_single_page_pdf
    simp only [List.append_assoc]
  · unfold blk3 objHeader
    simp only [List.append_assoc]
    rw [List.take_append_of_le_length (by decide)]
    decide
  · simp [off3, off2, off1, List.length_append]
    omega

/-- Marker of object 4 sits exactly at the recorded offset off4. -/
lemma obj4_marker_at (j : List Nat) (w h : Nat) :
    bytesAt (jpeg_to_single_page_pdf j w h) (off4 w h) (strB (Nat.repr 4 ++ " 0 obj")) := by
  apply bytesAt_of_append _ (hdr ++ (blk1 ++ (blk2 ++ blk3 w h)))
    (blk4 j w h ++ (blk5 w h ++
      (xrefSection (xref_positions j w h) ++
       trailerSection ((xref_positions j w h).length + 1) (xrefStartPos j w h))))
  · unfold jpeg_to_single_page_pdf
    simp only [List.append_assoc]
  · unfold blk4 objHeader
    simp only [List.append_assoc]
    rw [List.take_append_of_le_length (by decide)]
    decide
  · simp [off4, off3, off2, off1, List.length_append]
    omega

/-- Marker of object 5 sits exactly at the recorded offset off5. -/
lemma obj5_marker_at (j : List Nat) (w h : Nat) :
    bytesAt (jpeg_to_single_page_pdf j w h) (off5 j w h) (strB (Nat.repr 5 ++ " 0 obj")) := by
  apply bytesAt_of_append _ (hdr ++ (blk1 ++ (blk2 ++ (blk3 w h ++ blk4 j w h))))
    (blk5 w h ++
      (xrefSection (xref_positions j w h) ++
       trailerSection ((xref_positions j w h).length + 1) (xrefStartPos j w h)))
  · unfold jpeg_to_single_page_pdf
    simp only [List.append_assoc]
  · unfold blk5 objHeader
    simp only [List.append_assoc]
    rw [List.take_append_of_le_length (by decide)]
    decide
  · simp [off5, off4, off3, off2, off1, List.length_append]
    omega

/-- The cross-reference section of the assembled container, rewritten with
its six-entry header row and free-list head entry merged into one literal. -/
lemma xrefSection_eq (j : List Nat) (w h : Nat) :
    xrefSection (xref_positions j w h) =
      strB "xref\n0 6\n0000000000 65535 f \n" ++
        ((xref_positions j w h).map xrefEntry).flatten := by
  unfold xrefSection
  rw [show (xref_positions j w h).length + 1 = 6 from rfl]
  rw [show (strB ("xref\n0 " ++ Nat.repr 6 ++ "\n") ++ strB "0000000000 65535 f \n" : List Nat)
    = strB "xref\n0 6\n0000000000 65535 f \n" from by decide]

/-- The whole tail of the container starting at the recorded xref start:
entry-count header row for six entries, the free-list head, one fixed
format record per recorded offset in ascending id order, and the trailer
whose startxref number is the recorded xref start itself. -/
lemma xref_tail_at (j : List Nat) (w h : Nat) :
    bytesAt (jpeg_to_single_page_pdf j w h) (xrefStartPos j w h)
      (strB "xref\n0 6\n0000000000 65535 f \n" ++
        (((xref_positions j w h).map xrefEntry).flatten ++
          trailerSection 6 (xrefStartPos j w h))) := by
  apply bytesAt_of_append _ (hdr ++ (blk1 ++ (blk2 ++ (blk3 w h ++ (blk4 j w h ++ blk5 w h)))))
    (strB "xref\n0 6\n0000000000 65535 f \n" ++
      (((xref_positions j w h).map xrefEntry).flatten ++
        trailerSection 6 (xrefStartPos j w h)))
  · unfold jpeg_to_single_page_pdf
    rw [show (xref_positions j w h).length + 1 = 6 from rfl]
    rw [xrefSection_eq]
    simp only [List.append_assoc]
  · rw [List.take_length]
  · simp [xrefStartPos, off5, off4, off3, off2, off1, List.length_append]
    omega

/-- C1: the assembled container has a positionally exact cross-reference
section: xref_positions records five offsets (objects 1 through 5 in
ascending id order, six xref entries counting the free-list head), the
offset recorded for each object is the exact byte index at which its
object marker begins in the final buffer (header bytes accounted for),
the xref records are the ten-digit zero-padded decimals of exactly those
offsets, and the number after the startxref keyword is the exact byte
index at which the xref section begins. -/
theorem C1_xref_positionally_exact (j : List Nat) (w h : Nat) :
    xref_positions j w h = [off1, off2, off3, off4 w h, off5 j w h] ∧
    (xref_positions j w h).length = 5 ∧
    bytesAt (jpeg_to_single_page_pdf j w h) off1 (strB (Nat.repr 1 ++ " 0 obj")) ∧
    bytesAt (jpeg_to_single_page_pdf j w h) off2 (strB (Nat.repr 2 ++ " 0 obj")) ∧
    bytesAt (jpeg_to_single_page_pdf j w h) off3 (strB (Nat.repr 3 ++ " 0 obj")) ∧
    bytesAt (jpeg_to_single_page_pdf j w h) (off4 w h) (strB (Nat.repr 4 ++ " 0 obj")) ∧
    bytesAt (jpeg_to_single_page_pdf j w h) (off5 j w h) (strB (Nat.repr 5 ++ " 0 obj")) ∧
    bytesAt (jpeg_to_single_page_pdf j w h) (xrefStartPos j w h)
      (strB "xref\n0 6\n0000000000 65535 f \n" ++
        (((xref_positions j w h).map xrefEntry).flatten ++
          trailerSection 6 (xrefStartPos j w h))) :=
  ⟨rfl, rfl, obj1_marker_at j w h, obj2_marker_at j w h, obj3_marker_at j w h,
   obj4_marker_at j w h, obj5_marker_at j w h, xref_tail_at j w h⟩

/-- C3: at the recorded offset of object 4 the container holds the image
resource object: its dictionary (imageDictHead) declares a /Length equal
to the exact byte length of the supplied JPEG bytes, and between the
stream marker ending that dictionary and the stream terminator the
supplied JPEG bytes appear verbatim. -/
theorem C3_jpeg_embedded_verbatim (j : List Nat) (w h : Nat) :
    ∃ a b : List Nat,
      a.length = off4 w h ∧
      jpeg_to_single_page_pdf j w h =
        a ++ (objHeader 4 ++ (imageDictHead w h j.length ++
          (j ++ (strB "\nendstream\nendobj\n" ++ b)))) := by
  refine ⟨hdr ++ (blk1 ++ (blk2 ++ blk3 w h)),
    blk5 w h ++
      (xrefSection (xref_positions j w h) ++
       trailerSection ((xref_positions j w h).length + 1) (xrefStartPos j w h)), ?_, ?_⟩
  · simp [off4, off3, off2, off1, List.length_append]
    omega
  · unfold jpeg_to_single_page_pdf blk4
    simp only [List.append_assoc]

/-- C2 counterexample: the normalization pipeline does not reorient the
decoded buffer before the size policy runs. For a stored 3000 by 4000
image carrying the EXIF rotate-90-clockwise tag (raw value 6), the
pipeline feeds the stored dimensions to the size policy and builds the
container for a 1500 by 2000 page, while reorienting first — as the
claim demands — yields upright dimensions 4000 by 3000 and a 2000 by
1500 page: the two disagree. -/
theorem C2_counterexample :
    normalize_cv_to_pdf (fun _ => Except.ok ⟨3000, 4000, some 6, none⟩)
        (fun _ _ => []) [0] "image/jpeg" =
      Except.ok (jpeg_to_single_page_pdf [] 1500 2000) ∧
    load_image_with_orientation_dims ⟨3000, 4000, some 6, none⟩ = (4000, 3000) ∧
    Lib.calculate_target_size 4000 3000 2000 = (2000, 1500) ∧
    ((1500 : Nat), (2000 : Nat)) ≠ ((2000 : Nat), (1500 : Nat)) := by
  have hc : Lib.calculate_target_size 3000 4000 2000 = (1500, 2000) := by
    (norm_num [Lib.calculate_target_size, rust_round]; rfl)
  have hc2 : Lib.calculate_target_size 4000 3000 2000 = (2000, 1500) := by
    (norm_num [Lib.calculate_target_size, rust_round]; rfl)
  refine ⟨?_, by decide, hc2, by decide⟩
  unfold normalize_cv_to_pdf
  rw [if_neg (by decide)]
  show Except.ok (jpeg_to_single_page_pdf []
      (Lib.calculate_target_size 3000 4000 2000).1
      (Lib.calculate_target_size 3000 4000 2000).2) =
    Except.ok (jpeg_to_single_page_pdf [] 1500 2000)
  rw [hc]

/-- C2 amended: for every supported image mime (any declared mime whose
ASCII-lowercased form is image/png, image/jpeg, image/jpg or
image/pjpeg) the pipeline builds the container from the size policy
applied to the stored (never reoriented) decoded dimensions, whatever
EXIF or decoder orientation the input carries; a stored 3000 by 4000
image with the fixed long-side cap 2000 yields the 1500 by 2000 page box
of the claim, with no axis swap. -/
theorem C2_size_policy_on_stored_dimensions (f : DecodedInput)
    (encodeJpeg : Nat → Nat → List Nat) (bytes : List Nat) (mime : String)
    (hmime : to_ascii_lowercase mime = "image/png" ∨
      to_ascii_lowercase mime = "image/jpeg" ∨
      to_ascii_lowercase mime = "image/jpg" ∨
      to_ascii_lowercase mime = "image/pjpeg") :
    normalize_cv_to_pdf (fun _ => Except.ok f) encodeJpeg bytes mime =
      Except.ok (jpeg_to_single_page_pdf
        (encodeJpeg (Lib.calculate_target_size f.storedW f.storedH 2000).1
          (Lib.calculate_target_size f.storedW f.storedH 2000).2)
        (Lib.calculate_target_size f.storedW f.storedH 2000).1
        (Lib.calculate_target_size f.storedW f.storedH 2000).2) ∧
    Lib.calculate_target_size 3000 4000 2000 = (1500, 2000) := by
  constructor
  · unfold normalize_cv_to_pdf
    rw [if_neg (not_not_intro hmime)]
  · (norm_num [Lib.calculate_target_size, rust_round]; rfl)

/-- Witness for the amended C2 at the mime image/png (exercising a
supported mime other than image/jpeg) with EXIF rotate-90 metadata and a
stored 3000 by 4000 image. -/
theorem C2_size_policy_on_stored_dimensions_witness :
    normalize_cv_to_pdf (fun _ => Except.ok ⟨3000, 4000, some 6, none⟩)
        (fun _ _ => []) [0] "image/PNG" =
      Except.ok (jpeg_to_single_page_pdf
        ((fun _ _ => ([] : List Nat))
          (Lib.calculate_target_size 3000 4000 2000).1
          (Lib.calculate_target_size 3000 4000 2000).2)
        (Lib.calculate_target_size 3000 4000 2000).1
        (Lib.calculate_target_size 3000 4000 2000).2) ∧
    Lib.calculate_target_size 3000 4000 2000 = (1500, 2000) :=
  C2_size_policy_on_stored_dimensions ⟨3000, 4000, some 6, none⟩ (fun _ _ => []) [0]
    "image/PNG" (by decide)
